import Mathlib

/-!
# buoy: a topic-keyed websocket relay (buoy.go)

A shallow embedding of the handlers and the two per-connection pumps of
`buoy.go`, and theorems about them.

Conventions of the embedding.

* A Go `[]byte` is a list of byte values.
* A `*Connection` is a pointer; it is modelled by an identifier, and the state
  of the `send` channel each connection owns lives in a heap `ConnId → Chan`.
* The packages the program imports (`google/uuid`, `encoding/json`,
  `gorilla/websocket`, `net/http`, `time`) are not part of the repository.
  Their functions the handlers call are taken as a parameter (`Lib`); their
  documented constants are defined below.
* What a function does to the outside world (socket calls, requests sent to
  the hub, ticker calls, log lines) is recorded as a list of `Effect`s, in
  program order.  What the outside world does to a function (frames arriving,
  channel receives, ticks, write errors, clock readings) is a script of events.
* The hub type (`h`, `Subscription`, `Message`) is declared in a file of the
  repository that is not part of the sources; the fields used by `buoy.go`
  are modelled from their uses there.
-/

namespace Buoy

/-! ## Data model -/

/-- One byte of a Go byte slice. -/
abbrev Byte := Nat

/-- A Go byte slice. -/
abbrev Bytes := List Byte

/-- Durations and clock readings, in nanoseconds (Go: `int64` nanoseconds). -/
abbrev Nanos := Int

/-- The struct `JsonFormat`.  `T` is a `*json.RawMessage`: a nil pointer is `none`. -/
structure JsonFormat where
  A : String
  Bn : Int
  Sig : String
  T : Option Bytes
  Tx : String
deriving DecidableEq

/-- The zero value of `JsonFormat`, what `var data JsonFormat` holds. -/
def JsonFormat.zero : JsonFormat := ⟨"", 0, "", none, ""⟩

/-- Identity of a `*Connection`. -/
abbrev ConnId := Nat

/-- State of a Go channel of byte slices: the buffered items (head is the next
one received), the capacity given to `make`, and whether it has been closed. -/
structure Chan where
  buf : List Bytes
  cap : Nat
  closed : Bool
deriving DecidableEq

/-- What a send statement `ch <- m` does, when no receiver is waiting. -/
inductive SendResult where
  /-- the item was appended to the buffer -/
  | sent (ch : Chan)
  /-- the buffer is full: the sending goroutine is suspended -/
  | wouldBlock
  /-- the channel is closed: the send panics -/
  | panicClosed
deriving DecidableEq

/-- The channel with `m` appended at the tail of its buffer. -/
def Chan.push (ch : Chan) (m : Bytes) : Chan :=
  ⟨ch.buf ++ [m], ch.cap, ch.closed⟩

/-- The Go send statement `ch <- m` on a buffered channel. -/
def Chan.send (ch : Chan) (m : Bytes) : SendResult :=
  if ch.closed then .panicClosed
  else if ch.buf.length < ch.cap then .sent (ch.push m)
  else .wouldBlock

/-- A Go `map[*Connection]bool`, as its keys in the order a `range` loop visits
them.  Keys of a Go map are distinct; the order is not determined by the map,
so a statement about every `ConnSet` is a statement about every visiting order. -/
structure ConnSet where
  keys : List ConnId
  nodup : keys.Nodup

/-- The field `h.uuids` of the hub, a `map[string]map[*Connection]bool`.
A lookup of an absent key yields the nil map, `none`. -/
structure Hub where
  uuids : String → Option ConnSet

/-- The sessions registered under a topic (none when the topic is absent). -/
def Hub.sessions (h : Hub) (t : String) : List ConnId :=
  match h.uuids t with
  | some cs => cs.keys
  | none => []

/-- The invariant of the data model: a session is in the set of at most one topic. -/
def Hub.Disjoint (h : Hub) : Prop :=
  ∀ t₁ t₂ c, c ∈ h.sessions t₁ → c ∈ h.sessions t₂ → t₁ = t₂

/-- The type `Subscription`: a connection and the topic it is bound to. -/
structure Subscription where
  conn : ConnId
  uuid : String
deriving DecidableEq

/-- The type `Message`: a payload and the topic it is for.  It has no field
for the websocket message type. -/
structure Message where
  data : Bytes
  uuid : String
deriving DecidableEq

/-! ## Imported packages -/

/-- The functions of imported packages that the handlers call. -/
structure Lib where
  /-- Function `uuid.Parse`: the error it returns, if any (the parsed value is discarded by the caller) -/
  uuidParse : String → Option String
  /-- Function `json.Unmarshal(body, &data)` on a zero `data`: the contents of `data`
  after the call, and the error returned, if any -/
  unmarshal : Bytes → JsonFormat × Option String
  /-- Function `json.Marshal(data)` -/
  marshal : JsonFormat → Except String Bytes

/-- Constant `time.Second`, in nanoseconds. -/
def Second : Nanos := 1000000000

/-- Largest value of a Go `int64`. -/
def maxInt64 : Int := 2 ^ 63 - 1

/-- Smallest value of a Go `int64`. -/
def minInt64 : Int := -(2 ^ 63)

/-- Constant `websocket.TextMessage`. -/
def TextMessage : Int := 1
/-- Constant `websocket.BinaryMessage`. -/
def BinaryMessage : Int := 2
/-- Constant `websocket.CloseMessage`. -/
def CloseMessage : Int := 8
/-- Constant `websocket.PingMessage`. -/
def PingMessage : Int := 9
/-- Constant `websocket.CloseGoingAway`. -/
def CloseGoingAway : Int := 1001

/-! ## Constants of buoy.go -/

/-- Constant `writeWait = 10 * time.Second`. -/
def writeWait : Nanos := 10 * Second

/-- Constant `pongWait = 60 * time.Second`. -/
def pongWait : Nanos := 60 * Second

/-- Constant `pingPeriod = (pongWait * 9) / 10`. -/
def pingPeriod : Nanos := (pongWait * 9) / 10

/-- Constant `maxMessageSize = 512`. -/
def maxMessageSize : Int := 512

/-- Capacity of the `send` channel made in `handleConnection`: `make(chan []byte, 256)`. -/
def sendCapacity : Nat := 256

/-! ## The publish handler -/

/-- A call `http.Error(w, msg, code)`. -/
structure HttpError where
  msg : String
  code : Nat
deriving DecidableEq

/-- The part of a POST request the handler looks at: the path variable
`mux.Vars(r)["uuid"]` and what `ioutil.ReadAll(r.Body)` returns (the bytes
read, and the error, if any). -/
structure Request where
  uuid : String
  bodyRead : Bytes × Option String

/-- Function `validUUID`. -/
def validUUID (lib : Lib) (u : String) : Bool :=
  (lib.uuidParse u).isNone

/-- Function `readPost`: the calls of `http.Error` it makes and the body it
returns.  The named result `body` is assigned by `ioutil.ReadAll` and is what
the bare `return` of the error branch returns too. -/
def readPost (r : Request) : List HttpError × Bytes :=
  match r.bodyRead with
  | (body, some err) => ([⟨err, 500⟩], body)
  | (body, none) => ([], body)

/-- Function `readJson`: the calls of `http.Error` it makes and the data it
returns.  The named result `data` is what `json.Unmarshal` left in it, on
both branches. -/
def readJson (lib : Lib) (body : Bytes) : List HttpError × JsonFormat :=
  match lib.unmarshal body with
  | (data, some err) => ([⟨err, 500⟩], data)
  | (data, none) => ([], data)

/-- How a handler stops. -/
inductive Outcome where
  /-- the handler returned -/
  | returned
  /-- the handler is suspended in a send on the full channel of `c` -/
  | blocked (c : ConnId)
  /-- the handler panicked in a send on the closed channel of `c` -/
  | panicked (c : ConnId)
deriving DecidableEq

/-- The loop `for c := range connections { c.send <- []byte(jsonString) }`. -/
def sendAll (js : Bytes) : List ConnId → (ConnId → Chan) → (ConnId → Chan) × Outcome
  | [], q => (q, .returned)
  | c :: cs, q =>
    match (q c).send js with
    | .sent ch => sendAll js cs (Function.update q c ch)
    | .wouldBlock => (q, .blocked c)
    | .panicClosed => (q, .panicked c)

/-- Result of `handlePost`: the calls of `http.Error` made on the response
writer, the state of every connection's `send` channel, and how the handler
stopped.  The handler only reads `h.uuids`. -/
structure PostResult where
  resp : List HttpError
  send : ConnId → Chan
  outcome : Outcome

/-- Function `handlePost`. -/
def handlePost (lib : Lib) (h : Hub) (q : ConnId → Chan) (r : Request) : PostResult :=
  if validUUID lib r.uuid then
    let (e₁, body) := readPost r
    let (e₂, data) := readJson lib body
    match lib.marshal data with
    | .ok jsonString =>
      match h.uuids r.uuid with
      | some connections =>
        let (q₁, out) := sendAll jsonString connections.keys q
        ⟨e₁ ++ e₂, q₁, out⟩
      | none => ⟨e₁ ++ e₂, q, .returned⟩
    | .error _ => ⟨e₁ ++ e₂, q, .returned⟩
  else
    ⟨[], q, .returned⟩

/-! ## Effects and scripts of the pumps -/

/-- An error returned by `ws.ReadMessage`: a close frame of the peer
(`*websocket.CloseError`, with its code), or any other error (an i/o error, a
timeout of the read deadline, a frame over the read limit). -/
inductive ReadErr where
  | close (code : Int) (text : String)
  | other (msg : String)
deriving DecidableEq

/-- Function `websocket.IsUnexpectedCloseError(err, expectedCodes...)`: the
error is a close error whose code is not one of the expected ones. -/
def isUnexpectedCloseError (err : ReadErr) (expectedCodes : List Int) : Bool :=
  match err with
  | .close code _ => !(expectedCodes.contains code)
  | .other _ => false

/-- What the pumps and the subscribe handler do to the outside world. -/
inductive Effect where
  /-- Call `c.ws.SetReadLimit(n)` -/
  | setReadLimit (n : Int)
  /-- Call `c.ws.SetReadDeadline(t)` -/
  | setReadDeadline (t : Nanos)
  /-- Call `c.ws.SetPongHandler(...)` -/
  | setPongHandler
  /-- Call `log.Printf("error: %v", err)` -/
  | logPrintf (err : ReadErr)
  /-- Send `h.broadcast <- m` -/
  | broadcast (m : Message)
  /-- Send `h.unregister <- s` -/
  | unregister (s : Subscription)
  /-- Send `h.register <- s` -/
  | register (s : Subscription)
  /-- Call `ws.Close()` -/
  | wsClose
  /-- Call `time.NewTicker(d)` -/
  | newTicker (d : Nanos)
  /-- Call `ticker.Stop()` -/
  | tickerStop
  /-- Call `c.ws.SetWriteDeadline(t)` -/
  | setWriteDeadline (t : Nanos)
  /-- Call `c.ws.WriteMessage(mt, payload)` -/
  | writeMessage (mt : Int) (payload : Bytes)
  /-- Call `make(chan []byte, cap)` for the `send` field of a new connection -/
  | makeChan (cap : Nat)
  /-- Statement `go s.writePump()` -/
  | goWritePump (s : Subscription)
  /-- Call `log.Print("upgrade:", err)` -/
  | logPrint (err : String)
deriving DecidableEq

/-- How far a function got on a script: it returned, or it consumed the whole
script and is suspended waiting for the next event.  Both carry the effects
made so far, in program order. -/
inductive Run where
  | done (trace : List Effect)
  | waiting (trace : List Effect)
deriving DecidableEq

/-- The effects of a run. -/
def Run.trace : Run → List Effect
  | .done t => t
  | .waiting t => t

/-- What the socket presents to the read pump.  A call of `ws.ReadMessage`
handles any pong frames that arrive (calling the pong handler, at the clock
reading given) and returns at the next data frame or error. -/
inductive ReadEvent where
  /-- a pong frame arrives while `ReadMessage` waits; `now` is what `time.Now()` returns in the handler -/
  | pong (now : Nanos)
  /-- A call of `ReadMessage` returns a data frame of message type `mt` -/
  | frame (mt : Int) (msg : Bytes)
  /-- A call of `ReadMessage` returns an error -/
  | fail (err : ReadErr)
deriving DecidableEq

/-- The deferred function of `readPump`. -/
def readPumpDeferred (s : Subscription) : List Effect :=
  [.unregister s, .wsClose]

/-- The `for` loop of `readPump`, with the deferred function run on exit.
`acc` holds the effects made so far. -/
def readLoop (s : Subscription) : List ReadEvent → List Effect → Run
  | [], acc => .waiting acc
  | .pong now :: rest, acc => readLoop s rest (acc ++ [.setReadDeadline (now + pongWait)])
  | .frame _ msg :: rest, acc => readLoop s rest (acc ++ [.broadcast ⟨msg, s.uuid⟩])
  | .fail err :: _, acc =>
    .done (acc
      ++ (if isUnexpectedCloseError err [CloseGoingAway] then [.logPrintf err] else [])
      ++ readPumpDeferred s)

/-- The three calls `readPump` makes before its loop; `t0` is what `time.Now()` returns there. -/
def readPumpSetup (t0 : Nanos) : List Effect :=
  [.setReadLimit maxMessageSize, .setReadDeadline (t0 + pongWait), .setPongHandler]

/-- Method `readPump`. -/
def readPump (s : Subscription) (t0 : Nanos) (script : List ReadEvent) : Run :=
  readLoop s script (readPumpSetup t0)

/-- Method `write`: the calls it makes; `now` is what `time.Now()` returns.
The error it returns is the one of `WriteMessage`, given by the script. -/
def write (mt : Int) (payload : Bytes) (now : Nanos) : List Effect :=
  [.setWriteDeadline (now + writeWait), .writeMessage mt payload]

/-- What the `select` of the write pump receives, with the clock reading at
the write it leads to and the error that write returns, if any. -/
inductive WriteEvent where
  /-- Receive `message, ok := <-c.send` with `ok` true -/
  | item (message : Bytes) (now : Nanos) (werr : Option String)
  /-- Receive `message, ok := <-c.send` with `ok` false: the channel is closed and drained -/
  | closed (now : Nanos) (werr : Option String)
  /-- Receive `<-ticker.C` -/
  | tick (now : Nanos) (werr : Option String)
deriving DecidableEq

/-- The deferred function of `writePump`. -/
def writePumpDeferred : List Effect :=
  [.tickerStop, .wsClose]

/-- The `for`/`select` loop of `writePump`, with the deferred function run on
return.  `acc` holds the effects made so far. -/
def writeLoop : List WriteEvent → List Effect → Run
  | [], acc => .waiting acc
  | .item message now werr :: rest, acc =>
    match werr with
    | some _ => .done (acc ++ write TextMessage message now ++ writePumpDeferred)
    | none => writeLoop rest (acc ++ write TextMessage message now)
  | .closed now _ :: _, acc =>
    .done (acc ++ write CloseMessage [] now ++ writePumpDeferred)
  | .tick now werr :: rest, acc =>
    match werr with
    | some _ => .done (acc ++ write PingMessage [] now ++ writePumpDeferred)
    | none => writeLoop rest (acc ++ write PingMessage [] now)

/-- Method `writePump`. -/
def writePump (script : List WriteEvent) : Run :=
  writeLoop script [.newTicker pingPeriod]

/-! ## The subscribe handler -/

/-- Function `handleConnection`.  `upgradeErr` is the error of
`upgrader.Upgrade`, if any; `uuid` is `mux.Vars(r)["uuid"]`; `fresh` is the
address of the connection the handler allocates; `t0` and `script` are the
clock reading and the socket events seen by the read pump it runs. -/
def handleConnection (lib : Lib) (upgradeErr : Option String) (uuid : String)
    (fresh : ConnId) (t0 : Nanos) (script : List ReadEvent) : Run :=
  match upgradeErr with
  | some err => .done [.logPrint err]
  | none =>
    if validUUID lib uuid then
      let s : Subscription := ⟨fresh, uuid⟩
      let head : List Effect := [.makeChan sendCapacity, .register s, .goWritePump s]
      match readPump s t0 script with
      | .done t => .done (head ++ t)
      | .waiting t => .waiting (head ++ t)
    else
      .done [.wsClose]

/-- The requests to the hub among the effects: register, unregister, broadcast. -/
def Effect.isHubRequest : Effect → Bool
  | .register _ => true
  | .unregister _ => true
  | .broadcast _ => true
  | _ => false

/-- The requests to the hub and the closing of the socket among the effects. -/
def Effect.isRequest : Effect → Bool
  | .wsClose => true
  | e => e.isHubRequest

/-- The read deadlines set by the effects, in order. -/
def readDeadlines : List Effect → List Nanos
  | [] => []
  | .setReadDeadline t :: rest => t :: readDeadlines rest
  | _ :: rest => readDeadlines rest

/-- The clock readings of the pong frames of a script, in order. -/
def pongTimes : List ReadEvent → List Nanos
  | [] => []
  | .pong now :: rest => now :: pongTimes rest
  | _ :: rest => pongTimes rest

/-- The frames `WriteMessage` is called with, in order. -/
def framesWritten : List Effect → List (Int × Bytes)
  | [] => []
  | .writeMessage mt p :: rest => (mt, p) :: framesWritten rest
  | _ :: rest => framesWritten rest

/-- The event ends the write pump: the closed-channel signal, or a write that fails. -/
def WriteEvent.isTerminal : WriteEvent → Bool
  | .item _ _ werr => werr.isSome
  | .closed _ _ => true
  | .tick _ werr => werr.isSome

/-- The calls of `write` an event leads to. -/
def WriteEvent.writes : WriteEvent → List Effect
  | .item message now _ => write TextMessage message now
  | .closed now _ => write CloseMessage [] now
  | .tick now _ => write PingMessage [] now

/-! ## Functions and predicates used in the statements -/

/-- The state of every queue after `js` has been appended to the queue of each
session of `cs`. -/
def deliver (js : Bytes) (cs : List ConnId) (q : ConnId → Chan) : ConnId → Chan :=
  fun c => if c ∈ cs then (q c).push js else q c

/-- The queue is open and has free space. -/
def Chan.Free (ch : Chan) : Prop :=
  ch.closed = false ∧ ch.buf.length < ch.cap

/-- The queue is open and holds as many items as its capacity. -/
def Chan.Full (ch : Chan) : Prop :=
  ch.closed = false ∧ ch.buf.length = ch.cap

instance (ch : Chan) : Decidable ch.Free := by
  unfold Chan.Free
  infer_instance

instance (ch : Chan) : Decidable ch.Full := by
  unfold Chan.Full
  infer_instance

/-- The event is a failed read. -/
def ReadEvent.isFail : ReadEvent → Bool
  | .fail _ => true
  | _ => false

/-- The effects the read pump makes on a run of events that are not failures. -/
def readEffects (s : Subscription) : List ReadEvent → List Effect
  | [] => []
  | .pong now :: rest => .setReadDeadline (now + pongWait) :: readEffects s rest
  | .frame _ msg :: rest => .broadcast ⟨msg, s.uuid⟩ :: readEffects s rest
  | .fail _ :: rest => readEffects s rest

/-- The payloads of the data frames of a script, in order. -/
def framePayloads : List ReadEvent → List Bytes
  | [] => []
  | .frame _ msg :: rest => msg :: framePayloads rest
  | _ :: rest => framePayloads rest

/-- The effects of the exit of the read pump on the error `err`: the log
line, when the error is an unexpected close, and the deferred function. -/
def readExit (s : Subscription) (err : ReadErr) : List Effect :=
  (if isUnexpectedCloseError err [CloseGoingAway] then [.logPrintf err] else [])
    ++ readPumpDeferred s

/-- The calls of `write` a run of events leads to. -/
def writesOf : List WriteEvent → List Effect
  | [] => []
  | ev :: rest => ev.writes ++ writesOf rest

/-! ## Concrete data for runs of the handlers -/

/-- A well-formed topic id. -/
def exTopic : String := "123e4567-e89b-12d3-a456-426614174000"

/-- Another well-formed topic id. -/
def exOtherTopic : String := "00000000-0000-4000-8000-000000000001"

/-- The ASCII bytes of `not json`. -/
def exBadBody : Bytes := [110, 111, 116, 32, 106, 115, 111, 110]

/-- The ASCII bytes of `{"bn":7}`. -/
def exBody : Bytes := [123, 34, 98, 110, 34, 58, 55, 125]

/-- What `json.Unmarshal` makes of `exBody`. -/
def exData : JsonFormat := ⟨"", 7, "", none, ""⟩

/-- The ASCII bytes of `{"a":"","bn":7,"sig":"","t":null,"tx":""}`. -/
def exJson : Bytes :=
  [123, 34, 97, 34, 58, 34, 34, 44, 34, 98, 110, 34, 58, 55, 44, 34, 115, 105, 103, 34, 58,
   34, 34, 44, 34, 116, 34, 58, 110, 117, 108, 108, 44, 34, 116, 120, 34, 58, 34, 34, 125]

/-- The ASCII bytes of `{"a":"","bn":0,"sig":"","t":null,"tx":""}`, the encoding of the zero `JsonFormat`. -/
def zeroJson : Bytes :=
  [123, 34, 97, 34, 58, 34, 34, 44, 34, 98, 110, 34, 58, 48, 44, 34, 115, 105, 103, 34, 58,
   34, 34, 44, 34, 116, 34, 58, 110, 117, 108, 108, 44, 34, 116, 120, 34, 58, 34, 34, 125]

/-- A table of the imported functions at the inputs of the concrete runs below:
`uuid.Parse` accepts the 36-character form and rejects other lengths (the
32, 38 and 45 character forms are not tabulated), `json.Unmarshal` decodes
`exBody` and reports a syntax error, leaving the data untouched, on the other
bodies used, and `json.Marshal` encodes the two values used.  Error texts
are abbreviated. -/
def exLib : Lib where
  uuidParse u := if u.length = 36 then none else some "invalid UUID length"
  unmarshal body :=
    if body = exBody then (exData, none)
    else (JsonFormat.zero, some "invalid character")
  marshal d :=
    if d = exData then .ok exJson
    else if d = JsonFormat.zero then .ok zeroJson
    else .error "not tabulated"

/-- A hub with sessions 1 and 2 under `exTopic`, visited in this order, and
session 3 under `exOtherTopic`. -/
def exHub : Hub where
  uuids t :=
    if t = exTopic then some ⟨[1, 2], by decide⟩
    else if t = exOtherTopic then some ⟨[3], by decide⟩
    else none

/-- Every connection has an empty open queue of capacity 256. -/
def exQueues : ConnId → Chan :=
  fun _ => ⟨[], sendCapacity, false⟩

/-- Session 1 has a full queue of 256 items; the others have an empty one. -/
def exStalled : ConnId → Chan :=
  fun c => if c = 1 then ⟨List.replicate 256 [0], sendCapacity, false⟩ else ⟨[], sendCapacity, false⟩

/-- A subscription used in concrete runs: connection 1 under `exTopic`. -/
def exSub : Subscription := ⟨1, exTopic⟩

/-! ## Lemmas on the fan-out loop -/

theorem deliver_nil (js : Bytes) (q : ConnId → Chan) : deliver js [] q = q := by
  funext c
  simp [deliver]

theorem deliver_cons (js : Bytes) (c : ConnId) (cs : List ConnId) (q : ConnId → Chan)
    (hc : c ∉ cs) :
    deliver js cs (Function.update q c ((q c).push js))
      = deliver js (c :: cs) q := by
  funext d
  by_cases hd : d = c
  · subst hd
    simp [deliver, hc]
  · by_cases hm : d ∈ cs
    · simp [deliver, hd, hm, Function.update_noteq hd]
    · simp [deliver, hd, hm, Function.update_noteq hd]

theorem send_of_free (ch : Chan) (js : Bytes) (h : ch.Free) :
    ch.send js = .sent (ch.push js) := by
  obtain ⟨h₁, h₂⟩ := h
  simp [Chan.send, h₁, h₂]

theorem send_of_full (ch : Chan) (js : Bytes) (h : ch.Full) :
    ch.send js = .wouldBlock := by
  obtain ⟨h₁, h₂⟩ := h
  simp [Chan.send, h₁, h₂]

/-- The loop over sessions with free queues delivers to each and goes on with the rest. -/
theorem sendAll_append_free (js : Bytes) (pre rest : List ConnId) :
    ∀ q : ConnId → Chan, pre.Nodup → (∀ c ∈ pre, (q c).Free) →
      sendAll js (pre ++ rest) q = sendAll js rest (deliver js pre q) := by
  induction pre with
  | nil =>
    intro q _ _
    simp [deliver_nil]
  | cons c cs ih =>
    intro q hnd hfree
    have hc : c ∉ cs := (List.nodup_cons.mp hnd).1
    have hcs : cs.Nodup := (List.nodup_cons.mp hnd).2
    have hsend := send_of_free (q c) js (hfree c (List.mem_cons_self c cs))
    have hfree2 : ∀ d ∈ cs, (Function.update q c ((q c).push js) d).Free := by
      intro d hd
      have hne : d ≠ c := fun h => hc (h ▸ hd)
      rw [Function.update_noteq hne]
      exact hfree d (List.mem_cons_of_mem c hd)
    have hstep : sendAll js (c :: (cs ++ rest)) q
        = sendAll js (cs ++ rest) (Function.update q c ((q c).push js)) := by
      simp only [sendAll, hsend]
    rw [List.cons_append, hstep, ih _ hcs hfree2, deliver_cons js c cs q hc]

theorem sendAll_free (js : Bytes) (cs : List ConnId) (q : ConnId → Chan)
    (hnd : cs.Nodup) (hfree : ∀ c ∈ cs, (q c).Free) :
    sendAll js cs q = (deliver js cs q, .returned) := by
  have h := sendAll_append_free js cs [] q hnd hfree
  simpa [sendAll] using h

theorem sendAll_blocked (js : Bytes) (pre post : List ConnId) (a : ConnId) (q : ConnId → Chan)
    (hnd : (pre ++ a :: post).Nodup) (hfree : ∀ c ∈ pre, (q c).Free) (hfull : (q a).Full) :
    sendAll js (pre ++ a :: post) q = (deliver js pre q, .blocked a) := by
  have hpre : pre.Nodup := (List.nodup_append.mp hnd).1
  have ha : a ∉ pre := by
    intro hmem
    exact (List.nodup_append.mp hnd).2.2 hmem (List.mem_cons_self a post) 
  rw [sendAll_append_free js pre (a :: post) q hpre hfree]
  have hq : deliver js pre q a = q a := by simp [deliver, ha]
  simp [sendAll, hq, send_of_full (q a) js hfull]

/-- What `handlePost` does on a valid topic whose sessions have free queues,
whatever the two readers reported: it hands the re-encoded data to each. -/
theorem handlePost_delivers (lib : Lib) (h : Hub) (q : ConnId → Chan) (r : Request)
    (data : JsonFormat) (perr : Option String) (js : Bytes)
    (hT : validUUID lib r.uuid = true)
    (hparse : lib.unmarshal (readPost r).2 = (data, perr))
    (hmar : lib.marshal data = .ok js)
    (hfree : ∀ c ∈ h.sessions r.uuid, (q c).Free) :
    handlePost lib h q r
      = ⟨(readPost r).1 ++ (readJson lib (readPost r).2).1,
          deliver js (h.sessions r.uuid) q, .returned⟩ := by
  have hdata : (readJson lib (readPost r).2).2 = data := by
    unfold readJson
    rw [hparse]
    cases perr <;> rfl
  unfold handlePost
  simp only [hT, if_true, hdata, hmar]
  cases hu : h.uuids r.uuid with
  | none =>
    simp [Hub.sessions, hu, deliver_nil]
  | some cs =>
    have hs : h.sessions r.uuid = cs.keys := by simp [Hub.sessions, hu]
    rw [hs] at hfree
    simp [hs, sendAll_free js cs.keys q cs.nodup hfree]

/-- What `handlePost` does on a valid topic when the loop reaches a session
with a full queue after sessions with free ones: it is suspended there. -/
theorem handlePost_blocks (lib : Lib) (h : Hub) (q : ConnId → Chan) (r : Request)
    (data : JsonFormat) (perr : Option String) (js : Bytes)
    (cs : ConnSet) (pre post : List ConnId) (a : ConnId)
    (hT : validUUID lib r.uuid = true)
    (hparse : lib.unmarshal (readPost r).2 = (data, perr))
    (hmar : lib.marshal data = .ok js)
    (hcs : h.uuids r.uuid = some cs) (horder : cs.keys = pre ++ a :: post)
    (hfree : ∀ c ∈ pre, (q c).Free) (hfull : (q a).Full) :
    handlePost lib h q r
      = ⟨(readPost r).1 ++ (readJson lib (readPost r).2).1, deliver js pre q, .blocked a⟩ := by
  have hdata : (readJson lib (readPost r).2).2 = data := by
    unfold readJson
    rw [hparse]
    cases perr <;> rfl
  have hnd : (pre ++ a :: post).Nodup := horder ▸ cs.nodup
  unfold handlePost
  simp only [hT, if_true, hdata, hmar, hcs]
  simp [horder, sendAll_blocked js pre post a q hnd hfree hfull]

/-! ## Publishing: fan-out, malformed bodies, full queues, invalid topics -/

/-- C1. For every hub state, every topic `T` that passes `validUUID`, every
body that was read and parses as the envelope, with `js` its re-encoding, and
queues of the sessions of `T` that are open with free space: `handlePost`
returns, calls `http.Error` not at all, appends exactly `js` at the tail of the
queue of each session of `T` (none when `T` is absent or its set empty),
leaves every queue of a session outside the set of `T` as it was, and so,
under the invariant that a session is in one set only, every queue of a session
registered under another topic. -/
theorem handlePost_fanout (lib : Lib) (h : Hub) (q : ConnId → Chan) (T : String)
    (body : Bytes) (data : JsonFormat) (js : Bytes)
    (hT : validUUID lib T = true)
    (hparse : lib.unmarshal body = (data, none))
    (hcanon : lib.marshal data = .ok js)
    (hfree : ∀ c ∈ h.sessions T, (q c).Free) :
    (handlePost lib h q ⟨T, (body, none)⟩).outcome = .returned ∧
    (handlePost lib h q ⟨T, (body, none)⟩).resp = [] ∧
    (∀ c ∈ h.sessions T, (handlePost lib h q ⟨T, (body, none)⟩).send c = (q c).push js) ∧
    (∀ c, c ∉ h.sessions T → (handlePost lib h q ⟨T, (body, none)⟩).send c = q c) ∧
    (h.Disjoint → ∀ T₂, T₂ ≠ T → ∀ c ∈ h.sessions T₂,
      (handlePost lib h q ⟨T, (body, none)⟩).send c = q c) := by
  have hrun := handlePost_delivers lib h q ⟨T, (body, none)⟩ data none js hT
    (by simpa [readPost] using hparse) hcanon hfree
  have hresp : (readPost ⟨T, (body, none)⟩).1
      ++ (readJson lib (readPost ⟨T, (body, none)⟩).2).1 = [] := by
    simp [readPost, readJson, hparse]
  rw [hrun]
  refine ⟨rfl, hresp, ?_, ?_, ?_⟩
  · intro c hc
    simp [deliver, hc]
  · intro c hc
    simp [deliver, hc]
  · intro hdis T₂ hne c hc
    have hnot : c ∉ h.sessions T := fun hin => hne (hdis T₂ T c hc hin)
    simp [deliver, hnot]

/-- C2, as the code behaves. On a valid topic whose sessions have free queues,
a body that `json.Unmarshal` rejects with error `err`, leaving `data` behind,
is answered with `http.Error(w, err, 500)` and then, `js` being the encoding
of `data`, `js` is still appended to the queue of every session of the topic. -/
theorem handlePost_malformed_body_still_broadcasts (lib : Lib) (h : Hub) (q : ConnId → Chan)
    (T : String) (body : Bytes) (data : JsonFormat) (err : String) (js : Bytes)
    (hT : validUUID lib T = true)
    (hparse : lib.unmarshal body = (data, some err))
    (hcanon : lib.marshal data = .ok js)
    (hfree : ∀ c ∈ h.sessions T, (q c).Free) :
    (handlePost lib h q ⟨T, (body, none)⟩).resp = [⟨err, 500⟩] ∧
    (handlePost lib h q ⟨T, (body, none)⟩).outcome = .returned ∧
    (∀ c ∈ h.sessions T, (handlePost lib h q ⟨T, (body, none)⟩).send c = (q c).push js) := by
  have hrun := handlePost_delivers lib h q ⟨T, (body, none)⟩ data (some err) js hT
    (by simpa [readPost] using hparse) hcanon hfree
  have hresp : (readPost ⟨T, (body, none)⟩).1
      ++ (readJson lib (readPost ⟨T, (body, none)⟩).2).1 = [⟨err, 500⟩] := by
    simp [readPost, readJson, hparse]
  rw [hrun]
  refine ⟨hresp, rfl, ?_⟩
  intro c hc
  simp [deliver, hc]

/-- C3, as the code behaves. The send of `handlePost` is a blocking one: on a
well-formed POST to a valid topic `T`, when the loop over the sessions of `T`
visits the sessions `pre`, whose queues are open with free space, then a
session `A` whose queue is open and full, then the sessions `post`, the
handler is suspended in the send to `A`; the queue of `A` is as it was
(nothing dropped, not closed), each session visited before `A` has received
the payload and each session to be visited after `A` has received nothing. -/
theorem handlePost_blocks_on_full_queue (lib : Lib) (h : Hub) (q : ConnId → Chan) (T : String)
    (body : Bytes) (data : JsonFormat) (js : Bytes)
    (cs : ConnSet) (pre post : List ConnId) (A : ConnId)
    (hT : validUUID lib T = true)
    (hparse : lib.unmarshal body = (data, none))
    (hcanon : lib.marshal data = .ok js)
    (hcs : h.uuids T = some cs) (horder : cs.keys = pre ++ A :: post)
    (hfree : ∀ c ∈ pre, (q c).Free) (hfull : (q A).Full) :
    (handlePost lib h q ⟨T, (body, none)⟩).outcome = .blocked A ∧
    (handlePost lib h q ⟨T, (body, none)⟩).resp = [] ∧
    (handlePost lib h q ⟨T, (body, none)⟩).send A = q A ∧
    (∀ B ∈ pre, (handlePost lib h q ⟨T, (body, none)⟩).send B = (q B).push js) ∧
    (∀ B ∈ post, (handlePost lib h q ⟨T, (body, none)⟩).send B = q B) := by
  have hrun := handlePost_blocks lib h q ⟨T, (body, none)⟩ data none js cs pre post A hT
    (by simpa [readPost] using hparse) hcanon hcs horder hfree hfull
  have hresp : (readPost ⟨T, (body, none)⟩).1
      ++ (readJson lib (readPost ⟨T, (body, none)⟩).2).1 = [] := by
    simp [readPost, readJson, hparse]
  have hnd : (pre ++ A :: post).Nodup := horder ▸ cs.nodup
  have hdisj := (List.nodup_append.mp hnd).2.2
  rw [hrun]
  refine ⟨rfl, hresp, ?_, ?_, ?_⟩
  · have hA : A ∉ pre := fun hin => hdisj hin (List.mem_cons_self A post)
    simp [deliver, hA]
  · intro B hB
    simp [deliver, hB]
  · intro B hB
    have hB2 : B ∉ pre := fun hin => hdisj hin (List.mem_cons_of_mem A hB)
    simp [deliver, hB2]

/-- C4, as the code behaves. For every POST whose topic id fails `validUUID`,
`handlePost` returns without calling `http.Error` (no error response is
written), and no queue changes. -/
theorem handlePost_invalid_topic_silent (lib : Lib) (h : Hub) (q : ConnId → Chan) (r : Request)
    (hT : validUUID lib r.uuid = false) :
    (handlePost lib h q r).resp = [] ∧
    (handlePost lib h q r).send = q ∧
    (handlePost lib h q r).outcome = .returned := by
  unfold handlePost
  simp [hT]

/-! ### Concrete runs of the publish handler -/

theorem exTopic_valid : validUUID exLib exTopic = true := by decide

theorem exHub_sessions : exHub.sessions exTopic = [1, 2] := by decide

theorem exQueues_free (c : ConnId) : (exQueues c).Free :=
  ⟨rfl, by simp [exQueues, sendCapacity]⟩

theorem exLib_marshal_exData : exLib.marshal exData = .ok exJson := by
  simp [exLib]

theorem exLib_marshal_zero : exLib.marshal JsonFormat.zero = .ok zeroJson := by
  simp [exLib, exData, JsonFormat.zero]

theorem exHub_uuids : exHub.uuids exTopic = some ⟨[1, 2], by decide⟩ := by
  simp [exHub]

theorem replicate_full : (List.replicate 256 ([0] : Bytes)).length = 256 :=
  List.length_replicate 256 [0]

/-- C1 at a concrete input: a POST of `{"bn":7}` to a topic with sessions 1 and
2, session 3 being under another topic. -/
theorem handlePost_fanout_witness :
    validUUID exLib exTopic = true ∧
    exLib.unmarshal exBody = (exData, none) ∧
    exLib.marshal exData = .ok exJson ∧
    (handlePost exLib exHub exQueues ⟨exTopic, (exBody, none)⟩).outcome = .returned ∧
    (handlePost exLib exHub exQueues ⟨exTopic, (exBody, none)⟩).resp = [] ∧
    (handlePost exLib exHub exQueues ⟨exTopic, (exBody, none)⟩).send 1
      = ⟨[exJson], 256, false⟩ ∧
    (handlePost exLib exHub exQueues ⟨exTopic, (exBody, none)⟩).send 2
      = ⟨[exJson], 256, false⟩ ∧
    (handlePost exLib exHub exQueues ⟨exTopic, (exBody, none)⟩).send 3
      = ⟨[], 256, false⟩ := by
  have hrun := handlePost_fanout exLib exHub exQueues exTopic exBody exData exJson
    exTopic_valid (by decide) exLib_marshal_exData (fun c _ => exQueues_free c)
  refine ⟨exTopic_valid, by decide, exLib_marshal_exData, hrun.1, hrun.2.1, ?_, ?_, ?_⟩
  · exact hrun.2.2.1 1 (by rw [exHub_sessions]; decide)
  · exact hrun.2.2.1 2 (by rw [exHub_sessions]; decide)
  · exact hrun.2.2.2.1 3 (by rw [exHub_sessions]; decide)

/-- C2 at a concrete input: a POST of the bytes `not json` to a topic with
sessions 1 and 2 is answered with status 500, and the encoding of the zero
`JsonFormat` is appended to the queues of both sessions. -/
theorem handlePost_malformed_body_still_broadcasts_witness :
    exLib.unmarshal exBadBody = (JsonFormat.zero, some "invalid character") ∧
    (handlePost exLib exHub exQueues ⟨exTopic, (exBadBody, none)⟩).resp
      = [⟨"invalid character", 500⟩] ∧
    (handlePost exLib exHub exQueues ⟨exTopic, (exBadBody, none)⟩).send 1
      = ⟨[zeroJson], 256, false⟩ ∧
    (handlePost exLib exHub exQueues ⟨exTopic, (exBadBody, none)⟩).send 2
      = ⟨[zeroJson], 256, false⟩ := by
  have hrun := handlePost_malformed_body_still_broadcasts exLib exHub exQueues exTopic
    exBadBody JsonFormat.zero "invalid character" zeroJson
    exTopic_valid (by decide) exLib_marshal_zero (fun c _ => exQueues_free c)
  refine ⟨by decide, hrun.1, ?_, ?_⟩
  · exact hrun.2.2 1 (by rw [exHub_sessions]; decide)
  · exact hrun.2.2 2 (by rw [exHub_sessions]; decide)

theorem exStalled_full : (exStalled 1).Full :=
  ⟨rfl, replicate_full⟩

/-- C3 fails on the code: with session 1 (queue full, 256 items) visited
before session 2 (queue empty), a well-formed POST leaves the handler
suspended in the send to session 1, and session 2 has received nothing. -/
theorem handlePost_full_queue_counterexample :
    (exStalled 1).buf.length = 256 ∧ (exStalled 1).cap = 256 ∧
    (handlePost exLib exHub exStalled ⟨exTopic, (exBody, none)⟩).outcome = .blocked 1 ∧
    (handlePost exLib exHub exStalled ⟨exTopic, (exBody, none)⟩).send 2
      = ⟨[], 256, false⟩ := by
  have hrun := handlePost_blocks exLib exHub exStalled ⟨exTopic, (exBody, none)⟩ exData none
    exJson ⟨[1, 2], by decide⟩ [] [2] 1 exTopic_valid (by decide) exLib_marshal_exData
    exHub_uuids rfl (by simp) exStalled_full
  rw [hrun]
  exact ⟨replicate_full, rfl, rfl, rfl⟩

/-- C3 as amended, at a concrete input: session 2 has a full queue of 256
items and is visited after session 1, whose queue is empty. -/
theorem handlePost_blocks_on_full_queue_witness :
    (handlePost exLib exHub (fun c => if c = 2 then ⟨List.replicate 256 [0], 256, false⟩
        else ⟨[], 256, false⟩) ⟨exTopic, (exBody, none)⟩).outcome = .blocked 2 ∧
    (handlePost exLib exHub (fun c => if c = 2 then ⟨List.replicate 256 [0], 256, false⟩
        else ⟨[], 256, false⟩) ⟨exTopic, (exBody, none)⟩).send 1 = ⟨[exJson], 256, false⟩ := by
  have hrun := handlePost_blocks_on_full_queue exLib exHub
    (fun c => if c = 2 then ⟨List.replicate 256 [0], 256, false⟩ else ⟨[], 256, false⟩)
    exTopic exBody exData exJson ⟨[1, 2], by decide⟩ [1] [] 2
    exTopic_valid (by decide) exLib_marshal_exData exHub_uuids rfl
    (by intro c hc; simp at hc; subst hc; exact ⟨rfl, by decide⟩)
    ⟨rfl, replicate_full⟩
  exact ⟨hrun.1, hrun.2.2.2.1 1 (by simp)⟩

/-- C4 fails on the code: a POST to the topic `not-a-valid-id`, which
`validUUID` rejects, gets no call of `http.Error` at all. -/
theorem handlePost_invalid_topic_counterexample :
    validUUID exLib "not-a-valid-id" = false ∧
    (handlePost exLib exHub exQueues ⟨"not-a-valid-id", (exBody, none)⟩).resp = [] := by
  decide

/-- C4 as amended, at a concrete input. -/
theorem handlePost_invalid_topic_silent_witness :
    validUUID exLib "not a uuid" = false ∧
    (handlePost exLib exHub exQueues ⟨"not a uuid", (exBody, none)⟩).resp = [] ∧
    (handlePost exLib exHub exQueues ⟨"not a uuid", (exBody, none)⟩).outcome = .returned :=
  have hrun := handlePost_invalid_topic_silent exLib exHub exQueues
    ⟨"not a uuid", (exBody, none)⟩ (by decide)
  ⟨by decide, hrun.1, hrun.2.2⟩

/-! ## The read pump -/

/-- The loop on a run of events without a failure goes on with what follows. -/
theorem readLoop_append (s : Subscription) (pre tail : List ReadEvent) :
    ∀ acc : List Effect, (∀ ev ∈ pre, ev.isFail = false) →
      readLoop s (pre ++ tail) acc = readLoop s tail (acc ++ readEffects s pre) := by
  induction pre with
  | nil =>
    intro acc _
    simp [readEffects]
  | cons ev evs ih =>
    intro acc hpre
    have hevs : ∀ x ∈ evs, x.isFail = false := fun x hx => hpre x (List.mem_cons_of_mem ev hx)
    have hev : ev.isFail = false := hpre ev (List.mem_cons_self ev evs)
    cases ev with
    | pong now =>
      show readLoop s (evs ++ tail) (acc ++ [.setReadDeadline (now + pongWait)]) = _
      rw [ih _ hevs]
      simp [readEffects]
    | frame mt msg =>
      show readLoop s (evs ++ tail) (acc ++ [.broadcast ⟨msg, s.uuid⟩]) = _
      rw [ih _ hevs]
      simp [readEffects]
    | fail err =>
      simp [ReadEvent.isFail] at hev

/-- The read pump on a run without a failure is waiting for the next event. -/
theorem readPump_waiting (s : Subscription) (t0 : Nanos) (pre : List ReadEvent)
    (hpre : ∀ ev ∈ pre, ev.isFail = false) :
    readPump s t0 pre = .waiting (readPumpSetup t0 ++ readEffects s pre) := by
  have h := readLoop_append s pre [] (readPumpSetup t0) hpre
  simpa [readPump, readLoop] using h

/-- The read pump returns at the first failure. -/
theorem readPump_done (s : Subscription) (t0 : Nanos) (pre rest : List ReadEvent)
    (err : ReadErr) (hpre : ∀ ev ∈ pre, ev.isFail = false) :
    readPump s t0 (pre ++ .fail err :: rest)
      = .done (readPumpSetup t0 ++ readEffects s pre ++ readExit s err) := by
  unfold readPump
  rw [readLoop_append s pre _ _ hpre]
  simp [readLoop, readExit]

theorem frames_not_fail (ms : List (Int × Bytes)) :
    ∀ ev ∈ ms.map (fun m => ReadEvent.frame m.1 m.2), ev.isFail = false := by
  intro ev hev
  obtain ⟨m, _, rfl⟩ := List.mem_map.mp hev
  rfl

theorem readEffects_frames (s : Subscription) (ms : List (Int × Bytes)) :
    readEffects s (ms.map (fun m => ReadEvent.frame m.1 m.2))
      = ms.map (fun m => Effect.broadcast ⟨m.2, s.uuid⟩) := by
  induction ms with
  | nil => rfl
  | cons m ms ih => simp [readEffects, ih]

theorem filter_isRequest_broadcasts (s : Subscription) (ms : List (Int × Bytes)) :
    (ms.map (fun m => Effect.broadcast ⟨m.2, s.uuid⟩)).filter Effect.isRequest
      = ms.map (fun m => Effect.broadcast ⟨m.2, s.uuid⟩) := by
  apply List.filter_eq_self.mpr
  intro e he
  obtain ⟨m, _, rfl⟩ := List.mem_map.mp he
  rfl

theorem filter_isRequest_readExit (s : Subscription) (err : ReadErr) :
    (readExit s err).filter Effect.isRequest = [.unregister s, .wsClose] := by
  unfold readExit readPumpDeferred
  split <;> rfl

theorem filter_isRequest_readEffects (s : Subscription) (pre : List ReadEvent) :
    (readEffects s pre).filter Effect.isRequest
      = (framePayloads pre).map (fun m => Effect.broadcast ⟨m, s.uuid⟩) := by
  induction pre with
  | nil => rfl
  | cons ev evs ih =>
    cases ev <;>
      simp [readEffects, framePayloads, Effect.isRequest, Effect.isHubRequest, ih]

theorem framePayloads_frames (ms : List (Int × Bytes)) :
    framePayloads (ms.map (fun m => ReadEvent.frame m.1 m.2)) = ms.map (fun m => m.2) := by
  induction ms with
  | nil => rfl
  | cons m ms ih => simp [framePayloads, ih]

/-- C5. For every session `s` and every sequence `pre` of socket events none
of which is a failed read (data frames returned by `ReadMessage`, and pong
frames handled while it waits), followed by a read that fails with any error
`err` (whatever the socket would present after that), `readPump` returns, and
its effects are, in order: its three set-up calls; for each event of `pre`,
`h.broadcast <- Message{m, s.uuid}` for a frame of payload `m` (unchanged) and
the deadline reset of the pong handler for a pong; a log line when the error
is an unexpected close; then `h.unregister <- s` and `ws.Close()`, and nothing
after.  Its requests to the hub and the socket are thus exactly the broadcasts
of the payloads received, in order, then one unregister and one close.  When
the reads return the frames `ms` with no pong in between, the effects after
the set-up are the broadcasts, the optional log line, the unregister and the
close, and nothing else.  As long as no read has failed the pump has not
returned and has sent no unregister and closed nothing. -/
theorem readPump_effect_trace (s : Subscription) (t0 : Nanos) (pre : List ReadEvent)
    (ms : List (Int × Bytes)) (err : ReadErr) (rest : List ReadEvent)
    (hpre : ∀ ev ∈ pre, ev.isFail = false) :
    readPump s t0 (pre ++ .fail err :: rest)
      = .done (readPumpSetup t0
          ++ readEffects s pre
          ++ (if isUnexpectedCloseError err [CloseGoingAway] then [.logPrintf err] else [])
          ++ [.unregister s, .wsClose]) ∧
    (readPump s t0 (pre ++ .fail err :: rest)).trace.filter Effect.isRequest
      = (framePayloads pre).map (fun m => Effect.broadcast ⟨m, s.uuid⟩)
          ++ [.unregister s, .wsClose] ∧
    readPump s t0 (ms.map (fun m => ReadEvent.frame m.1 m.2) ++ .fail err :: rest)
      = .done (readPumpSetup t0
          ++ ms.map (fun m => Effect.broadcast ⟨m.2, s.uuid⟩)
          ++ (if isUnexpectedCloseError err [CloseGoingAway] then [.logPrintf err] else [])
          ++ [.unregister s, .wsClose]) ∧
    (readPump s t0 (ms.map (fun m => ReadEvent.frame m.1 m.2) ++ .fail err :: rest)).trace.filter
        Effect.isRequest
      = ms.map (fun m => Effect.broadcast ⟨m.2, s.uuid⟩) ++ [.unregister s, .wsClose] ∧
    readPump s t0 pre = .waiting (readPumpSetup t0 ++ readEffects s pre) ∧
    (readPump s t0 pre).trace.filter Effect.isRequest
      = (framePayloads pre).map (fun m => Effect.broadcast ⟨m, s.uuid⟩) := by
  have hrun := readPump_done s t0 pre rest err hpre
  have hframes := readPump_done s t0 _ rest err (frames_not_fail ms)
  rw [readEffects_frames] at hframes
  have hwait := readPump_waiting s t0 pre hpre
  have hsetup : (readPumpSetup t0).filter Effect.isRequest = [] := rfl
  refine ⟨?_, ?_, ?_, ?_, hwait, ?_⟩
  · rw [hrun]
    simp [readExit, readPumpDeferred]
  · rw [hrun]
    simp only [Run.trace, List.filter_append, filter_isRequest_readEffects,
      filter_isRequest_readExit, hsetup, List.nil_append]
  · rw [hframes]
    simp [readExit, readPumpDeferred]
  · rw [hframes]
    simp only [Run.trace, List.filter_append, filter_isRequest_broadcasts,
      filter_isRequest_readExit, hsetup, List.nil_append]
  · rw [hwait]
    simp only [Run.trace, List.filter_append, filter_isRequest_readEffects, hsetup,
      List.nil_append]

/-- C5 at a concrete input: a frame, a pong at 30 s, a second frame, then a
close of the peer with code 1006 (an unexpected close, which is logged); the
frame after the failure is not read. -/
theorem readPump_effect_trace_witness :
    readPump exSub 0
        [.frame TextMessage [104, 105], .pong (30 * Second), .frame BinaryMessage [1, 2],
         .fail (.close 1006 "abnormal"), .frame TextMessage [9]]
      = .done [.setReadLimit 512, .setReadDeadline (60 * Second), .setPongHandler,
          .broadcast ⟨[104, 105], exTopic⟩, .setReadDeadline (90 * Second),
          .broadcast ⟨[1, 2], exTopic⟩, .logPrintf (.close 1006 "abnormal"),
          .unregister exSub, .wsClose] :=
  (readPump_effect_trace exSub 0
    [.frame TextMessage [104, 105], .pong (30 * Second), .frame BinaryMessage [1, 2]] []
    (.close 1006 "abnormal") [.frame TextMessage [9]] (by decide)).1.trans (by decide)

theorem readDeadlines_append (a b : List Effect) :
    readDeadlines (a ++ b) = readDeadlines a ++ readDeadlines b := by
  induction a with
  | nil => rfl
  | cons e es ih => cases e <;> simp [readDeadlines, ih]

theorem readDeadlines_readEffects (s : Subscription) (pre : List ReadEvent) :
    readDeadlines (readEffects s pre) = (pongTimes pre).map (· + pongWait) := by
  induction pre with
  | nil => rfl
  | cons ev evs ih => cases ev <;> simp [readEffects, readDeadlines, pongTimes, ih]

theorem readDeadlines_readExit (s : Subscription) (err : ReadErr) :
    readDeadlines (readExit s err) = [] := by
  unfold readExit readPumpDeferred
  split <;> rfl

theorem pongTimes_frames (ms : List (Int × Bytes)) :
    pongTimes (ms.map (fun m => ReadEvent.frame m.1 m.2)) = [] := by
  induction ms with
  | nil => rfl
  | cons m ms ih => simpa [pongTimes] using ih

/-- C9, as the code behaves. `readPump` sets the read deadline once in its
set-up, to the clock reading there plus `pongWait`, and then only in the pong
handler, to the clock reading there plus `pongWait`: after any run `pre` of
frames and pongs, and also after the failure that ends the pump, the deadlines
set are these and no other.  A run of data frames alone sets none after the
set-up, however many frames are read. -/
theorem readPump_deadlines (s : Subscription) (t0 : Nanos) (pre rest : List ReadEvent)
    (err : ReadErr) (ms : List (Int × Bytes))
    (hpre : ∀ ev ∈ pre, ev.isFail = false) :
    readDeadlines (readPump s t0 pre).trace = (t0 :: pongTimes pre).map (· + pongWait) ∧
    readDeadlines (readPump s t0 (pre ++ .fail err :: rest)).trace
      = (t0 :: pongTimes pre).map (· + pongWait) ∧
    readDeadlines (readPump s t0 (ms.map (fun m => ReadEvent.frame m.1 m.2))).trace
      = [t0 + pongWait] := by
  refine ⟨?_, ?_, ?_⟩
  · rw [readPump_waiting s t0 pre hpre]
    simp [Run.trace, readDeadlines_append, readDeadlines_readEffects, readPumpSetup,
      readDeadlines]
  · rw [readPump_done s t0 pre rest err hpre]
    simp [Run.trace, readDeadlines_append, readDeadlines_readEffects, readDeadlines_readExit,
      readPumpSetup, readDeadlines]
  · rw [readPump_waiting s t0 _ (frames_not_fail ms)]
    simp [Run.trace, readDeadlines_append, readDeadlines_readEffects, readPumpSetup,
      readDeadlines, pongTimes_frames]

/-- C9 as amended, at a concrete input: a pong at 30 s between two frames. -/
theorem readPump_deadlines_witness :
    readDeadlines (readPump exSub 0
        [.frame TextMessage [104, 105], .pong (30 * Second), .frame TextMessage [104, 111],
         .fail (.other "i/o timeout")]).trace
      = [60 * Second, 90 * Second] := by
  have hrun := (readPump_deadlines exSub 0
    [.frame TextMessage [104, 105], .pong (30 * Second), .frame TextMessage [104, 111]] []
    (.other "i/o timeout") [] (by decide)).2.1
  exact hrun.trans (by decide)

/-- C9 fails on the code: on a successful read of one frame followed by a
failed read, the effects of `readPump` hold one call of `SetReadDeadline`, the
one of the set-up; none follows the read of the frame. -/
theorem readPump_deadline_counterexample :
    readPump exSub 0 [.frame TextMessage [104, 105], .fail (.other "i/o timeout")]
      = .done [.setReadLimit 512, .setReadDeadline 60000000000, .setPongHandler,
          .broadcast ⟨[104, 105], exTopic⟩, .unregister exSub, .wsClose] := by
  decide

/-! ## The write pump -/

/-- The loop on a run of events that do not end the pump goes on with what follows. -/
theorem writeLoop_append (pre tail : List WriteEvent) :
    ∀ acc : List Effect, (∀ ev ∈ pre, ev.isTerminal = false) →
      writeLoop (pre ++ tail) acc = writeLoop tail (acc ++ writesOf pre) := by
  induction pre with
  | nil =>
    intro acc _
    simp [writesOf]
  | cons ev evs ih =>
    intro acc hpre
    have hevs : ∀ x ∈ evs, x.isTerminal = false :=
      fun x hx => hpre x (List.mem_cons_of_mem ev hx)
    have hev : ev.isTerminal = false := hpre ev (List.mem_cons_self ev evs)
    cases ev with
    | item message now werr =>
      cases werr with
      | some e => simp [WriteEvent.isTerminal] at hev
      | none =>
        show writeLoop (evs ++ tail) (acc ++ write TextMessage message now) = _
        rw [ih _ hevs]
        simp [writesOf, WriteEvent.writes]
    | closed now werr =>
      simp [WriteEvent.isTerminal] at hev
    | tick now werr =>
      cases werr with
      | some e => simp [WriteEvent.isTerminal] at hev
      | none =>
        show writeLoop (evs ++ tail) (acc ++ write PingMessage [] now) = _
        rw [ih _ hevs]
        simp [writesOf, WriteEvent.writes]

/-- The loop returns at an event that ends the pump, after the write of that
event and the deferred function. -/
theorem writeLoop_terminal (ev : WriteEvent) (rest : List WriteEvent) (acc : List Effect)
    (hev : ev.isTerminal = true) :
    writeLoop (ev :: rest) acc = .done (acc ++ ev.writes ++ writePumpDeferred) := by
  cases ev with
  | item message now werr =>
    cases werr with
    | some e => rfl
    | none => simp [WriteEvent.isTerminal] at hev
  | closed now werr => rfl
  | tick now werr =>
    cases werr with
    | some e => rfl
    | none => simp [WriteEvent.isTerminal] at hev

/-- C6. For every sequence of events seen by `writePump` and every outcome of
each write: as long as no event is the closed-queue signal or comes with a
failed write, the pump has not returned; at the first event `ev` that is the
closed-queue signal, a failed data write or a failed ping write, it returns
(whatever would follow), and its effects are the ticker creation, the writes
of the events before `ev`, the write of `ev`, then `ticker.Stop()` and
`ws.Close()` as its last two actions.  When `ev` is the closed-queue signal,
the write of `ev` is that of a close frame with an empty payload. -/
theorem writePump_cleanup (pre rest : List WriteEvent) (ev : WriteEvent)
    (hpre : ∀ x ∈ pre, x.isTerminal = false) (hev : ev.isTerminal = true) :
    writePump pre = .waiting ([.newTicker pingPeriod] ++ writesOf pre) ∧
    writePump (pre ++ ev :: rest)
      = .done ([.newTicker pingPeriod] ++ writesOf pre ++ ev.writes
          ++ [.tickerStop, .wsClose]) ∧
    (∀ now werr, ev = .closed now werr →
      ev.writes = [.setWriteDeadline (now + writeWait), .writeMessage CloseMessage []]) := by
  refine ⟨?_, ?_, ?_⟩
  · have h := writeLoop_append pre [] [.newTicker pingPeriod] hpre
    simpa [writePump, writeLoop] using h
  · unfold writePump
    rw [writeLoop_append pre _ _ hpre, writeLoop_terminal ev rest _ hev]
    rfl
  · intro now werr h
    subst h
    rfl

/-- C6 at a concrete input: an item written, a ping written, then the closed
queue; the events after it are not looked at. -/
theorem writePump_cleanup_witness :
    writePump [.item [104, 105] 5 none, .tick 7 none, .closed 9 none, .tick 11 none]
      = .done [.newTicker pingPeriod,
          .setWriteDeadline (5 + writeWait), .writeMessage TextMessage [104, 105],
          .setWriteDeadline (7 + writeWait), .writeMessage PingMessage [],
          .setWriteDeadline (9 + writeWait), .writeMessage CloseMessage [],
          .tickerStop, .wsClose] :=
  (writePump_cleanup [.item [104, 105] 5 none, .tick 7 none] [.tick 11 none] (.closed 9 none)
    (by decide) rfl).2.1

/-! ## The relay and the message type -/

/-- The loop of the read pump does not look at the message type of a frame. -/
theorem readLoop_frame_type (s : Subscription) (mt₁ mt₂ : Int) (p : Bytes)
    (pre rest : List ReadEvent) :
    ∀ acc : List Effect,
      readLoop s (pre ++ .frame mt₁ p :: rest) acc
        = readLoop s (pre ++ .frame mt₂ p :: rest) acc := by
  induction pre with
  | nil =>
    intro acc
    rfl
  | cons ev evs ih =>
    intro acc
    cases ev with
    | pong now => exact ih _
    | frame mt msg => exact ih _
    | fail err => rfl

/-- C8, as the code behaves. The relay carries no message type: the read pump
does the same whatever the type `mt` of a frame it receives (it forwards the
payload alone), and the write pump writes every queue item `p` it takes as a
frame of type text, after the writes of the events before it, and stops after
it when that write fails. -/
theorem relay_writes_text (s : Subscription) (t0 : Nanos) (mt : Int) (p : Bytes)
    (pre rest : List ReadEvent) (wpre : List WriteEvent) (now : Nanos) (werr : Option String)
    (hw : ∀ x ∈ wpre, x.isTerminal = false) :
    readPump s t0 (pre ++ .frame mt p :: rest)
      = readPump s t0 (pre ++ .frame TextMessage p :: rest) ∧
    (writePump (wpre ++ [.item p now werr])).trace
      = [.newTicker pingPeriod] ++ writesOf wpre
          ++ [.setWriteDeadline (now + writeWait), .writeMessage TextMessage p]
          ++ (if werr.isSome then [.tickerStop, .wsClose] else []) := by
  constructor
  · exact readLoop_frame_type s mt TextMessage p pre rest _
  · unfold writePump
    rw [writeLoop_append wpre _ _ hw]
    cases werr with
    | some e => simp [writeLoop, write, writePumpDeferred, Run.trace]
    | none => simp [writeLoop, write, Run.trace]

/-- C8 as amended, at a concrete input: a binary frame read, and a tick and then an item written. -/
theorem relay_writes_text_witness :
    readPump exSub 0 [.frame BinaryMessage [1, 2, 3]]
      = readPump exSub 0 [.frame TextMessage [1, 2, 3]] ∧
    (writePump [.tick 3 none, .item [1, 2, 3] 4 none]).trace
      = [.newTicker pingPeriod,
          .setWriteDeadline (3 + writeWait), .writeMessage PingMessage [],
          .setWriteDeadline (4 + writeWait), .writeMessage TextMessage [1, 2, 3]] :=
  relay_writes_text exSub 0 BinaryMessage [1, 2, 3] [] [] [.tick 3 none] 4 none (by decide)

/-- C8 fails on the code: a frame received with type binary (2) is forwarded
as a message holding its payload alone, and the write pump that takes this
payload from its queue writes it with type text (1). -/
theorem relay_frame_type_counterexample :
    (readPump exSub 0 [.frame BinaryMessage [1, 2, 3], .fail (.other "EOF")]).trace.filter
        Effect.isHubRequest
      = [.broadcast ⟨[1, 2, 3], exTopic⟩, .unregister exSub] ∧
    framesWritten (writePump [.item [1, 2, 3] 0 none, .closed 1 none]).trace
      = [(1, [1, 2, 3]), (8, [])] ∧
    BinaryMessage = 2 := by
  decide

/-! ## The subscribe handler on an invalid topic -/

/-- C7. For every upgrade request whose handshake succeeds and whose topic id
fails `validUUID`, `handleConnection` returns after one effect, `ws.Close()`:
it sends no register request (nor any other request) to the hub, makes no
queue, starts no write pump and runs no read pump; so whatever the hub does
on a request, the subscriber sets are what they were. -/
theorem handleConnection_invalid_topic (lib : Lib) (uuid : String) (fresh : ConnId)
    (t0 : Nanos) (script : List ReadEvent)
    (hT : validUUID lib uuid = false) :
    handleConnection lib none uuid fresh t0 script = .done [.wsClose] ∧
    (∀ e ∈ (handleConnection lib none uuid fresh t0 script).trace, e = .wsClose) ∧
    (∀ (step : Hub → Effect → Hub) (h : Hub),
      ((handleConnection lib none uuid fresh t0 script).trace.filter
        Effect.isHubRequest).foldl step h = h) := by
  have hrun : handleConnection lib none uuid fresh t0 script = .done [.wsClose] := by
    simp [handleConnection, hT]
  rw [hrun]
  refine ⟨rfl, ?_, ?_⟩
  · intro e he
    simpa [Run.trace] using he
  · intro step h
    rfl

/-- C7 at a concrete input: the topic `not-a-valid-id`. -/
theorem handleConnection_invalid_topic_witness :
    validUUID exLib "not-a-valid-id" = false ∧
    handleConnection exLib none "not-a-valid-id" 7 0 [.frame TextMessage [104, 105]]
      = .done [.wsClose] :=
  ⟨by decide,
    (handleConnection_invalid_topic exLib "not-a-valid-id" 7 0 [.frame TextMessage [104, 105]]
      (by decide)).1⟩

/-! ## Keepalive timing -/

/-- C10. With durations in nanoseconds, `pongWait * 9` is within the range
of a 64-bit integer, `pingPeriod = (pongWait * 9) / 10` is exactly 54 seconds,
which is less than `pongWait`, 60 seconds; `writeWait` is 10 seconds and
`maxMessageSize` is 512.  (The operands are positive, so the division is the
same under every rounding.) -/
theorem keepalive_constants :
    minInt64 ≤ pongWait ∧ pongWait ≤ maxInt64 ∧
    minInt64 ≤ pongWait * 9 ∧ pongWait * 9 ≤ maxInt64 ∧
    pongWait * 9 % 10 = 0 ∧
    pingPeriod = 54 * Second ∧ pingPeriod = 54000000000 ∧
    pingPeriod < pongWait ∧
    pongWait = 60 * Second ∧ pongWait = 60000000000 ∧
    writeWait = 10 * Second ∧ writeWait = 10000000000 ∧
    maxMessageSize = 512 := by
  decide

end Buoy
